import Mathlib

/-!
Shallow embedding of the IPASIR-2 C++ wrapper (`ipasir2cpp.h`) and proofs
about its marshalling layer, solve-result decoding, callback exception
bridge, dynamic-symbol loading, and clause-adding overloads.

The embedding follows `src/include/ipasir2cpp.h`.  Pointers are modelled
symbolically (an input sequence's backing storage, the handle's scratch
buffer, or the null pointer); exceptions thrown by client callbacks are
modelled as opaque tokens so that identity preservation is expressible.
-/

namespace Ipasir2

/-- Symbolic model of a `int32_t const*` pointer value handed to the native
layer: a pointer into some input sequence's own backing storage (identified
by an abstract address), a pointer into the handle's scratch buffer
(`m_clause_buf`), or the null pointer. -/
inductive Ptr where
  | input (addr : Nat)
  | buf
  | null
deriving DecidableEq, Repr

/-- Opaque token standing for a C++ exception object (`std::exception_ptr`
payload).  Equality of tokens models "same exception object, original type
and payload preserved". -/
abbrev Exc := Nat

/-- `ipasir2::ipasir2_error`: the single exception kind of the wrapper.
`status_error` models `ipasir2_error{func_name, code}` (carries the failing
entry-point name and the native status code); `message_error` models
`ipasir2_error{message}` (no status code). -/
inductive Ip2Error where
  | status_error (func : String) (code : Int)
  | message_error (msg : String)
deriving DecidableEq, Repr

/-- `ipasir2::redundancy` (values `none`, `forgettable`, `equisatisfiable`,
`equivalent`). -/
inductive redundancy where
  | none
  | forgettable
  | equisatisfiable
  | equivalent
deriving DecidableEq, Repr

/-- `ipasir2::lit_traits<Lit>`: the registered bidirectional conversion of a
client literal type to/from the wire representation (`int32_t`). -/
structure LitTraits (α : Type) where
  to_ipasir2_lit : α → Int
  from_ipasir2_lit : Int → α

/-- `lit_traits<int32_t>`: the identity conversion. -/
def lit_traits_int32 : LitTraits Int := ⟨id, id⟩

/-- One input sequence handed to `detail::as_contiguous_int32s`, classified
the way the marshaller's `if constexpr` dispatch classifies it:
contiguous storage of `int32_t` (with the abstract address of its backing
storage), non-contiguous storage of `int32_t`, or a sequence of a custom
literal type requiring conversion. -/
inductive LitSeq (α : Type) where
  | contiguousInt32 (addr : Nat) (lits : List Int)
  | noncontiguousInt32 (lits : List Int)
  | custom (lits : List α)

/-- Length of the input sequence (`std::distance(start, stop)`). -/
def LitSeq.seq_len {α : Type} : LitSeq α → Nat
  | .contiguousInt32 _ lits => lits.length
  | .noncontiguousInt32 lits => lits.length
  | .custom lits => lits.length

/-- The element-wise wire conversion of the input, in input order: the
identity for `int32_t` elements (`lit_traits<int32_t>`), and
`lit_traits<Lit>::to_ipasir2_lit` element-wise for a custom literal type. -/
def LitSeq.wire_of {α : Type} (tr : LitTraits α) : LitSeq α → List Int
  | .contiguousInt32 _ lits => lits
  | .noncontiguousInt32 lits => lits
  | .custom lits => lits.map tr.to_ipasir2_lit

/-- The `(pointer, size)` pair returned by `detail::as_contiguous_int32s`,
together with `view`: the `int32_t` data visible through the returned
pointer (the input's own data on the zero-copy path, the scratch buffer's
contents otherwise). -/
structure MarshalResult where
  ptr : Ptr
  len : Nat
  view : List Int
deriving DecidableEq, Repr

/-- The conversion loop of the marshaller's third branch:
`buffer.clear();` followed by `buffer.push_back(to_ipasir2_lit(*iter))`
for each element. -/
def convert_loop {α : Type} (tr : LitTraits α) (lits : List α) : List Int :=
  lits.foldl (fun buffer l => buffer ++ [tr.to_ipasir2_lit l]) []

/-- `detail::as_contiguous_int32s(start, stop, buffer)`: returns the
marshalled view and the buffer's contents after the call.
Branch 1: contiguous `int32_t` storage is used directly (`{&*start,
std::distance(start, stop)}`), the buffer is untouched.
Branch 2: `int32_t` elements in non-contiguous storage are copied
(`buffer.assign(start, stop)`).
Branch 3: custom literals are converted element-wise into the buffer. -/
def as_contiguous_int32s {α : Type} (tr : LitTraits α) (seq : LitSeq α)
    (buffer : List Int) : MarshalResult × List Int :=
  match seq with
  | .contiguousInt32 addr lits => (⟨.input addr, lits.length, lits⟩, buffer)
  | .noncontiguousInt32 lits =>
      let buffer := lits
      (⟨.buf, buffer.length, buffer⟩, buffer)
  | .custom lits =>
      let buffer := convert_loop tr lits
      (⟨.buf, buffer.length, buffer⟩, buffer)

/-- `detail::to_solve_result`: decodes the native numeric solve result into
the tri-state `optional_bool` (10 ↦ true, 20 ↦ false, anything else ↦
empty). -/
def to_solve_result (ipasir2_solve_result : Int) : Option Bool :=
  if ipasir2_solve_result = 10 then some true
  else if ipasir2_solve_result = 20 then some false
  else Option.none

/-- `detail::clause_view_from_zero_terminated`: the literals up to (not
including) the first zero of a zero-terminated native clause buffer. -/
def clause_view_from_zero_terminated (start : List Int) : List Int :=
  start.takeWhile (fun l => l ≠ 0)

lemma convert_loop_eq_map {α : Type} (tr : LitTraits α) (lits : List α) :
    convert_loop tr lits = lits.map tr.to_ipasir2_lit := by
  suffices h : ∀ acc : List Int,
      lits.foldl (fun buffer l => buffer ++ [tr.to_ipasir2_lit l]) acc
        = acc ++ lits.map tr.to_ipasir2_lit by
    simpa [convert_loop] using h []
  induction lits with
  | nil => intro acc; simp
  | cons x xs ih => intro acc; simp [List.foldl_cons, ih]

/-- A client terminate closure (`std::function<bool()>` contents): an
identity tag plus its behaviour when invoked — return a `Bool`, or throw an
exception. -/
structure TermClosure where
  id : Nat
  run : Except Exc Bool

/-- A client export closure (`std::function<void(clause_view<int32_t>)>`
contents): an identity tag plus its behaviour on a clause view — return, or
throw an exception. -/
structure ExportClosure where
  id : Nat
  run : List Int → Except Exc Unit

/-- The callback-relevant state of one `ipasir2::solver` object: the scratch
buffer `m_clause_buf`, the registered closures `m_terminate_callback` and
`m_export_callback`, and the pending-exception slot
`m_exception_thrown_in_callback`. -/
structure SolverState where
  clauseBuf : List Int
  terminateCb : Option TermClosure
  exportCb : Option ExportClosure
  pendingExc : Option Exc

/-- The C terminate trampoline registered by `solver::set_terminate_callback`
(the lambda passed to `ipasir2_set_terminate`).  Returns the `int` handed
back to the native layer (nonzero requests abort), the updated owner state,
and the id of the client closure that was invoked (if any).
If an exception is already pending it returns `true` (abort) without calling
the closure; if no closure is set it returns `false`; a thrown exception is
captured into the pending slot and `true` is returned. -/
def terminate_trampoline (s : SolverState) : Int × SolverState × Option Nat :=
  if s.pendingExc.isSome then
    (1, s, Option.none)
  else
    match s.terminateCb with
    | some cb =>
        match cb.run with
        | .ok b => ((if b then 1 else 0), s, some cb.id)
        | .error e => (1, { s with pendingExc := some e }, some cb.id)
    | Option.none => (0, s, Option.none)

/-- The C export trampoline registered by `solver::set_export_callback` (the
lambda passed to `ipasir2_set_export`).  Receives the zero-terminated native
clause; returns the updated owner state and the id of the client closure
that was invoked (if any).  If an exception is already pending it returns
without effect; a thrown exception is captured into the pending slot. -/
def export_trampoline (s : SolverState) (clause : List Int) :
    SolverState × Option Nat :=
  if s.pendingExc.isSome then
    (s, Option.none)
  else
    match s.exportCb with
    | some cb =>
        match cb.run (clause_view_from_zero_terminated clause) with
        | .ok _ => (s, some cb.id)
        | .error e => ({ s with pendingExc := some e }, some cb.id)
    | Option.none => (s, Option.none)

/-- `solver::set_terminate_callback(callback)`: registers the trampoline
with the native layer only when no callback is currently set (the native
call may fail with `native_result ≠ 0`, in which case the error is thrown
and the closure is not stored); then stores the closure. -/
def set_terminate_callback (s : SolverState) (cb : TermClosure)
    (native_result : Int) : SolverState × Option Ip2Error :=
  if s.terminateCb.isNone then
    if native_result ≠ 0 then
      (s, some (.status_error "ipasir2_set_terminate" native_result))
    else
      ({ s with terminateCb := some cb }, Option.none)
  else
    ({ s with terminateCb := some cb }, Option.none)

/-- `solver::set_export_callback(callback, max_size)` (wire-typed literal
case): first resets `m_export_callback` so the old closure can no longer be
called, then registers the trampoline with the native layer (failure throws,
leaving no closure stored), then stores the new closure. -/
def set_export_callback (s : SolverState) (cb : ExportClosure)
    (native_result : Int) : SolverState × Option Ip2Error :=
  let s1 := { s with exportCb := Option.none }
  if native_result ≠ 0 then
    (s1, some (.status_error "ipasir2_set_export" native_result))
  else
    ({ s1 with exportCb := some cb }, Option.none)

/-- `solver::clear_terminate_callback()`. -/
def clear_terminate_callback (s : SolverState) (native_result : Int) :
    SolverState × Option Ip2Error :=
  let s1 := { s with terminateCb := Option.none }
  if native_result ≠ 0 then
    (s1, some (.status_error "ipasir2_set_terminate" native_result))
  else
    (s1, Option.none)

/-- `solver::clear_export_callback()`. -/
def clear_export_callback (s : SolverState) (native_result : Int) :
    SolverState × Option Ip2Error :=
  let s1 := { s with exportCb := Option.none }
  if native_result ≠ 0 then
    (s1, some (.status_error "ipasir2_set_export" native_result))
  else
    (s1, Option.none)

/-- One callback invocation performed by the native layer while it is inside
`ipasir2_solve`: a terminate poll, or an export notification carrying a
zero-terminated clause buffer. -/
inductive NativeEvent where
  | terminatePoll
  | exportClause (zero_terminated : List Int)

/-- The effect on the owner's state of the native solve call invoking the
given sequence of callbacks through the registered trampolines. -/
def run_native_events (s : SolverState) (evs : List NativeEvent) :
    SolverState :=
  evs.foldl
    (fun st ev =>
      match ev with
      | .terminatePoll => (terminate_trampoline st).2.1
      | .exportClause c => (export_trampoline st c).1)
    s

/-- The arguments `(assumptions_ptr, assumptions_len)` handed to the native
`ipasir2_solve` entry point. -/
structure NativeSolveArgs where
  assumptions_ptr : Ptr
  assumptions_len : Nat
deriving DecidableEq, Repr

/-- Outcome of a `solver::solve` call: a returned tri-state result, a
re-thrown client-callback exception, or a thrown `ipasir2_error` translated
from a non-success native status. -/
inductive SolveOutcome where
  | ok (r : Option Bool)
  | threw_callback (e : Exc)
  | threw_status (func : String) (code : Int)
deriving DecidableEq, Repr

/-- The tail of every `solver::solve` overload, after the native call
returned: `rethrow_exception_thrown_in_callback();` (re-throws and clears
the pending exception, if any) then `detail::throw_if_failed(solve_status,
"ipasir2_solve");` then `return detail::to_solve_result(result);`. -/
def solve_epilogue (s2 : SolverState) (solve_status result : Int) :
    SolverState × SolveOutcome :=
  match s2.pendingExc with
  | some e => ({ s2 with pendingExc := Option.none }, .threw_callback e)
  | Option.none =>
      if solve_status ≠ 0 then
        (s2, .threw_status "ipasir2_solve" solve_status)
      else
        (s2, .ok (to_solve_result result))

/-- `solver::solve(assumptions_start, assumptions_stop)`: marshals the
assumptions into `m_clause_buf` via `as_contiguous_int32s`, invokes the
native solve entry point (during which the native layer may invoke the
registered callbacks, modelled by `evs`, and produces `solve_status` and
`result`), then runs the epilogue. -/
def solve {α : Type} (s : SolverState) (tr : LitTraits α)
    (assumptions : LitSeq α) (evs : List NativeEvent)
    (solve_status result : Int) :
    SolverState × NativeSolveArgs × SolveOutcome :=
  let res := as_contiguous_int32s tr assumptions s.clauseBuf
  let args : NativeSolveArgs := ⟨res.1.ptr, res.1.len⟩
  let s1 := { s with clauseBuf := res.2 }
  let s2 := run_native_events s1 evs
  let fin := solve_epilogue s2 solve_status result
  (fin.1, args, fin.2)

/-- `solver::solve()` (no assumptions): passes `nullptr, 0` directly to the
native solve entry point, then runs the same epilogue. -/
def solve_no_assumptions (s : SolverState) (evs : List NativeEvent)
    (solve_status result : Int) :
    SolverState × NativeSolveArgs × SolveOutcome :=
  let args : NativeSolveArgs := ⟨.null, 0⟩
  let s2 := run_native_events s evs
  let fin := solve_epilogue s2 solve_status result
  (fin.1, args, fin.2)

/-- `solver::lit_value(lit)`: converts the literal to the wire
representation, calls `ipasir2_val` (whose status and output value are the
parameters `status` and `result`), and translates the native ternary
encoding: the literal itself ↦ true, its negation ↦ false, zero ↦ empty,
anything else ↦ `ipasir2_error` with a descriptive message. -/
def lit_value {α : Type} (tr : LitTraits α) (lit : α) (status result : Int) :
    Except Ip2Error (Option Bool) :=
  let ipasir2_lit := tr.to_ipasir2_lit lit
  if status ≠ 0 then .error (.status_error "ipasir2_val" status)
  else if result = ipasir2_lit then .ok (some true)
  else if result = -ipasir2_lit then .ok (some false)
  else if result = 0 then .ok Option.none
  else .error (.message_error "Unknown truth value received from solver")

/-- `solver::assumption_failed(lit)`: converts the literal to the wire
representation, calls `ipasir2_failed` (status and output value given by
`status` and `result`), raises a typed error unless the native value is 0
or 1, and returns whether it is 1. -/
def assumption_failed {α : Type} (tr : LitTraits α) (lit : α)
    (status result : Int) : Except Ip2Error Bool :=
  let _ipasir2_lit := tr.to_ipasir2_lit lit
  if status ≠ 0 then .error (.status_error "ipasir2_failed" status)
  else if result ≠ 0 ∧ result ≠ 1 then
    .error (.message_error "Unknown truth value received from solver")
  else .ok (result = 1)

/-- A dynamically loadable module as seen through `dlopen`/`dlsym`: whether
`dlopen` succeeds, and for each symbol name the resolved function-pointer
address (`Option.none` models `dlsym` returning `nullptr`). -/
structure Module where
  opens_ok : Bool
  syms : String → Option Nat

/-- `detail::shared_c_api`: the function-pointer table.  Each field models
one entry-point pointer; `Option.none` models a null pointer. -/
structure shared_c_api where
  add : Option Nat := Option.none
  failed : Option Nat := Option.none
  init : Option Nat := Option.none
  options : Option Nat := Option.none
  release : Option Nat := Option.none
  set_export : Option Nat := Option.none
  set_opt : Option Nat := Option.none
  set_terminate : Option Nat := Option.none
  signature : Option Nat := Option.none
  solve : Option Nat := Option.none
  val : Option Nat := Option.none
deriving DecidableEq, Repr

/-- `detail::shared_c_api::load_sym(func_ptr, name, api)`: resolves one
symbol via `dlsym` and throws `ipasir2_error` if the result is null. -/
def load_sym (m : Module) (name : String) : Except Ip2Error Nat :=
  match m.syms name with
  | some p => .ok p
  | Option.none => .error (.message_error "Missing symbol in the IPASIR2 library.")

/-- The entry points `detail::shared_c_api::load` resolves, in the order it
resolves them. -/
def required_symbols : List String :=
  ["ipasir2_add", "ipasir2_failed", "ipasir2_init", "ipasir2_options",
   "ipasir2_release", "ipasir2_set_export", "ipasir2_set_option",
   "ipasir2_set_terminate", "ipasir2_signature", "ipasir2_solve",
   "ipasir2_val"]

/-- `detail::shared_c_api::load(shared_lib)`: opens the module (throwing if
`dlopen` fails) and resolves every required entry point in turn, each
resolution throwing if the symbol is missing; only if all succeed is the
populated table returned. -/
def shared_c_api.load (m : Module) : Except Ip2Error shared_c_api :=
  if !m.opens_ok then
    .error (.message_error "Could not open the IPASIR2 library.")
  else
    match load_sym m "ipasir2_add" with
    | .error e => .error e
    | .ok a =>
    match load_sym m "ipasir2_failed" with
    | .error e => .error e
    | .ok f =>
    match load_sym m "ipasir2_init" with
    | .error e => .error e
    | .ok i =>
    match load_sym m "ipasir2_options" with
    | .error e => .error e
    | .ok o =>
    match load_sym m "ipasir2_release" with
    | .error e => .error e
    | .ok r =>
    match load_sym m "ipasir2_set_export" with
    | .error e => .error e
    | .ok se =>
    match load_sym m "ipasir2_set_option" with
    | .error e => .error e
    | .ok so =>
    match load_sym m "ipasir2_set_terminate" with
    | .error e => .error e
    | .ok st =>
    match load_sym m "ipasir2_signature" with
    | .error e => .error e
    | .ok sg =>
    match load_sym m "ipasir2_solve" with
    | .error e => .error e
    | .ok sv =>
    match load_sym m "ipasir2_val" with
    | .error e => .error e
    | .ok v =>
      .ok { add := some a, failed := some f, init := some i,
            options := some o, release := some r, set_export := some se,
            set_opt := some so, set_terminate := some st,
            signature := some sg, solve := some sv, val := some v }

/-- Whether every entry-point pointer of the table is non-null. -/
def shared_c_api.fully_resolved (api : shared_c_api) : Prop :=
  api.add.isSome ∧ api.failed.isSome ∧ api.init.isSome ∧
  api.options.isSome ∧ api.release.isSome ∧ api.set_export.isSome ∧
  api.set_opt.isSome ∧ api.set_terminate.isSome ∧
  api.signature.isSome ∧ api.solve.isSome ∧ api.val.isSome

/-- The arguments handed to the native `ipasir2_add` entry point:
the clause pointer, the `int32_t` data visible through it, the clause
length, and the redundancy value. -/
structure NativeAddArgs where
  clause_ptr : Ptr
  clause_data : List Int
  clause_len : Nat
  red : redundancy
deriving DecidableEq, Repr

/-- `solver::add(start, stop, red)` (the iterator-range overload all other
`add` overloads funnel into): marshals the clause into `m_clause_buf` via
`as_contiguous_int32s` and invokes the native add entry point with the
resulting view and the redundancy (a non-success status, parameter
`status`, is translated into a thrown `ipasir2_error`). -/
def add_range {α : Type} (s : SolverState) (tr : LitTraits α)
    (clause : LitSeq α) (red : redundancy) (status : Int) :
    SolverState × NativeAddArgs × Option Ip2Error :=
  let res := as_contiguous_int32s tr clause s.clauseBuf
  let s1 := { s with clauseBuf := res.2 }
  let args : NativeAddArgs := ⟨res.1.ptr, res.1.view, res.1.len, red⟩
  (s1, args,
    if status ≠ 0 then some (.status_error "ipasir2_add" status)
    else Option.none)

/-- One element of a variadic `add(lit, rest...)` argument pack: a literal,
or the trailing `redundancy` value. -/
inductive LitOrRed (α : Type) where
  | lit (l : α)
  | red (r : redundancy)

/-- `std::get<i>(params)` applied over `lit_indices...` (`0, ..., n-1`):
the literal components among the first `n` tuple elements. -/
def tuple_lits {α : Type} (params : List (LitOrRed α)) (n : Nat) : List α :=
  (params.take n).filterMap
    (fun x => match x with | .lit l => some l | .red _ => Option.none)

/-- The last tuple element, `std::get<sizeof...(lits_and_redundancy) - 1>`,
read as the redundancy value. -/
def tuple_red {α : Type} (params : List (LitOrRed α)) : redundancy :=
  match params.getLast? with
  | some (.red r) => r
  | _ => redundancy.none

/-- `solver::add_parampack_helper(params, index_sequence<lit_indices...>)`
for wire-typed (`int32_t`) literals: collects the literals
`std::get<lit_indices>(params)...` into a `std::array<int32_t, N>`
(contiguous stack storage at the abstract address `arr_addr`), reads the
redundancy from the last tuple element, and calls the iterator-range
`add`. -/
def add_parampack_helper (s : SolverState) (params : List (LitOrRed Int))
    (arr_addr : Nat) (status : Int) :
    SolverState × NativeAddArgs × Option Ip2Error :=
  let literals_array := tuple_lits params (params.length - 1)
  let red := tuple_red params
  add_range s lit_traits_int32 (LitSeq.contiguousInt32 arr_addr literals_array)
    red status

/-- `solver::add(lit, rest...)` for wire-typed literals when every argument
is a literal: collects the arguments into a `std::array<int32_t, N>` (whose
iterators are contiguous `int32_t` iterators) and calls the iterator-range
`add` with `redundancy::none`. -/
def add_variadic_nored (s : SolverState) (first : Int) (rest : List Int)
    (arr_addr : Nat) (status : Int) :
    SolverState × NativeAddArgs × Option Ip2Error :=
  add_range s lit_traits_int32 (LitSeq.contiguousInt32 arr_addr (first :: rest))
    redundancy.none status

/-- `solver::add(lit, rest...)` for wire-typed literals when the last
argument is a `redundancy` value: forwards all arguments as a tuple to
`add_parampack_helper` with `index_sequence<0, ..., sizeof...(rest) - 1>`
(so the tuple has `sizeof...(rest) + 1` elements, the last being the
redundancy). -/
def add_variadic_red (s : SolverState) (first : Int) (rest : List Int)
    (r : redundancy) (arr_addr : Nat) (status : Int) :
    SolverState × NativeAddArgs × Option Ip2Error :=
  add_parampack_helper s
    ((LitOrRed.lit first :: rest.map LitOrRed.lit) ++ [LitOrRed.red r])
    arr_addr status

lemma as_contiguous_int32s_view {α : Type} (tr : LitTraits α) (seq : LitSeq α)
    (buffer : List Int) :
    (as_contiguous_int32s tr seq buffer).1.view = seq.wire_of tr := by
  cases seq <;>
    simp [as_contiguous_int32s, LitSeq.wire_of, convert_loop_eq_map]

lemma as_contiguous_int32s_len {α : Type} (tr : LitTraits α) (seq : LitSeq α)
    (buffer : List Int) :
    (as_contiguous_int32s tr seq buffer).1.len = seq.seq_len := by
  cases seq <;>
    simp [as_contiguous_int32s, LitSeq.seq_len, convert_loop_eq_map]

lemma solve_epilogue_of_pending (s2 : SolverState) (status result : Int)
    (e : Exc) (h : s2.pendingExc = some e) :
    solve_epilogue s2 status result
      = ({ s2 with pendingExc := Option.none }, .threw_callback e) := by
  unfold solve_epilogue
  rw [h]

lemma solve_epilogue_of_clear_ok (s2 : SolverState) (result : Int)
    (h : s2.pendingExc = Option.none) :
    solve_epilogue s2 0 result = (s2, .ok (to_solve_result result)) := by
  unfold solve_epilogue
  rw [h]
  simp

lemma solve_epilogue_no_callback_exc (s2 : SolverState) (status result : Int)
    (h : s2.pendingExc = Option.none) (e2 : Exc) :
    (solve_epilogue s2 status result).2 ≠ .threw_callback e2 := by
  unfold solve_epilogue
  rw [h]
  by_cases hst : status ≠ 0 <;> simp [hst]

lemma add_range_native_args {α : Type} (s : SolverState) (tr : LitTraits α)
    (clause : LitSeq α) (red : redundancy) (status : Int) :
    (add_range s tr clause red status).2.1.clause_data = clause.wire_of tr
    ∧ (add_range s tr clause red status).2.1.red = red
    ∧ (add_range s tr clause red status).2.1.clause_len = clause.seq_len := by
  refine ⟨?_, ?_, ?_⟩ <;>
    simp [add_range, as_contiguous_int32s_view, as_contiguous_int32s_len]

/-- C1: for every solve call on a handle with no pending callback exception
and a successful native status (code 0), the returned tri-state is decoded
from the native numeric result code: 10 decodes to true, 20 to false, and
any other code to the empty "no result" value. -/
theorem C1_solve_decodes_result_codes {α : Type} (s : SolverState)
    (tr : LitTraits α) (assumptions : LitSeq α) (evs : List NativeEvent)
    (result : Int)
    (h : (run_native_events
        { s with clauseBuf := (as_contiguous_int32s tr assumptions s.clauseBuf).2 }
        evs).pendingExc = Option.none) :
    (solve s tr assumptions evs 0 result).2.2 = .ok (to_solve_result result)
    ∧ to_solve_result 10 = some true
    ∧ to_solve_result 20 = some false
    ∧ ∀ r : Int, r ≠ 10 → r ≠ 20 → to_solve_result r = Option.none := by
  refine ⟨?_, by simp [to_solve_result], by simp [to_solve_result], ?_⟩
  · simp only [solve]
    rw [solve_epilogue_of_clear_ok _ _ h]
  · intro r h10 h20
    simp [to_solve_result, h10, h20]

theorem C1_witness :
    (solve (SolverState.mk [] Option.none Option.none Option.none)
        lit_traits_int32 (LitSeq.contiguousInt32 0 [1, -2]) [] 0 10).2.2
      = .ok (some true) := by
  have h := C1_solve_decodes_result_codes
    (SolverState.mk [] Option.none Option.none Option.none)
    lit_traits_int32 (LitSeq.contiguousInt32 0 [1, -2]) [] 10 rfl
  rw [h.1, h.2.1]

/-- C3: if, after the native solve call returns, a callback exception is
pending and the native status is non-success, the solve call raises the
callback exception and not the status-code error. -/
theorem C3_callback_exception_takes_priority {α : Type} (s : SolverState)
    (tr : LitTraits α) (assumptions : LitSeq α) (evs : List NativeEvent)
    (status result : Int) (e : Exc)
    (hcap : (run_native_events
        { s with clauseBuf := (as_contiguous_int32s tr assumptions s.clauseBuf).2 }
        evs).pendingExc = some e)
    (_hstatus : status ≠ 0) :
    (solve s tr assumptions evs status result).2.2 = .threw_callback e
    ∧ (solve s tr assumptions evs status result).2.2
        ≠ .threw_status "ipasir2_solve" status := by
  have hmain : (solve s tr assumptions evs status result).2.2
      = .threw_callback e := by
    simp only [solve]
    rw [solve_epilogue_of_pending _ _ _ _ hcap]
  exact ⟨hmain, by rw [hmain]; intro hcontra; cases hcontra⟩

theorem C3_witness :
    (solve (SolverState.mk [] (some ⟨7, .error 42⟩) Option.none Option.none)
        lit_traits_int32 (LitSeq.contiguousInt32 0 [1])
        [NativeEvent.terminatePoll] 5 10).2.2
      = .threw_callback 42 :=
  (C3_callback_exception_takes_priority
    (SolverState.mk [] (some ⟨7, .error 42⟩) Option.none Option.none)
    lit_traits_int32 (LitSeq.contiguousInt32 0 [1])
    [NativeEvent.terminatePoll] 5 10 42 rfl (by decide)).1

/-- C4: when a cross-boundary exception is already pending, the terminate
trampoline returns the abort signal and the export trampoline returns
without effect; in both cases the client closure is not invoked and the
owner's state (in particular the pending-exception slot) is unchanged. -/
theorem C4_trampolines_skip_closure_when_pending (s : SolverState) (e : Exc)
    (clause : List Int) (h : s.pendingExc = some e) :
    terminate_trampoline s = (1, s, Option.none)
    ∧ export_trampoline s clause = (s, Option.none) := by
  constructor
  · simp [terminate_trampoline, h]
  · simp [export_trampoline, h]

theorem C4_witness :
    terminate_trampoline
      (SolverState.mk [] (some ⟨7, .ok false⟩) Option.none (some 3))
      = (1, SolverState.mk [] (some ⟨7, .ok false⟩) Option.none (some 3),
         Option.none)
    ∧ export_trampoline
        (SolverState.mk [] (some ⟨7, .ok false⟩) Option.none (some 3)) [1, 0]
      = (SolverState.mk [] (some ⟨7, .ok false⟩) Option.none (some 3),
         Option.none) :=
  C4_trampolines_skip_closure_when_pending
    (SolverState.mk [] (some ⟨7, .ok false⟩) Option.none (some 3)) 3 [1, 0] rfl

/-- C5: the marshaller returns a view of length equal to the input length;
for contiguous wire-typed input the returned pointer is the input's own
backing storage and the scratch buffer is untouched (no copy); for every
other input the returned pointer is the scratch buffer, whose new contents
are the element-wise wire conversion of the input, in input order. -/
theorem C5_marshaller_zero_copy_or_buffer {α : Type} (tr : LitTraits α)
    (seq : LitSeq α) (buffer : List Int) :
    (∀ addr lits, seq = LitSeq.contiguousInt32 addr lits →
        (as_contiguous_int32s tr seq buffer).1.ptr = .input addr
        ∧ (as_contiguous_int32s tr seq buffer).2 = buffer)
    ∧ ((∀ addr lits, seq ≠ LitSeq.contiguousInt32 addr lits) →
        (as_contiguous_int32s tr seq buffer).1.ptr = .buf
        ∧ (as_contiguous_int32s tr seq buffer).2 = seq.wire_of tr)
    ∧ (as_contiguous_int32s tr seq buffer).1.len = seq.seq_len := by
  refine ⟨?_, ?_, as_contiguous_int32s_len tr seq buffer⟩
  · intro addr lits hEq
    subst hEq
    simp [as_contiguous_int32s]
  · intro hne
    cases seq with
    | contiguousInt32 addr lits => exact absurd rfl (hne addr lits)
    | noncontiguousInt32 lits =>
        simp [as_contiguous_int32s, LitSeq.wire_of]
    | custom lits =>
        simp [as_contiguous_int32s, LitSeq.wire_of, convert_loop_eq_map]

theorem C5_witness :
    (as_contiguous_int32s (LitTraits.mk (fun n => -n) (fun n => -n))
        (LitSeq.custom [1, 2]) [9]).1.ptr = Ptr.buf
    ∧ (as_contiguous_int32s (LitTraits.mk (fun n => -n) (fun n => -n))
        (LitSeq.custom [1, 2]) [9]).2 = [-1, -2]
    ∧ (as_contiguous_int32s lit_traits_int32
        (LitSeq.contiguousInt32 4 [3, -5]) [9]).1.ptr = Ptr.input 4 := by
  have h1 := (C5_marshaller_zero_copy_or_buffer
      (LitTraits.mk (fun n => -n) (fun n => -n)) (LitSeq.custom [1, 2])
      [9]).2.1 (by intro addr lits hEq; cases hEq)
  have h2 := (C5_marshaller_zero_copy_or_buffer lit_traits_int32
      (LitSeq.contiguousInt32 4 [3, -5]) [9]).1 4 [3, -5] rfl
  refine ⟨h1.1, ?_, h2.1⟩
  rw [h1.2]
  rfl

/-- C6 (evaluation at the failing input): the no-assumptions `solve()`
overload hands the native solve entry point a null assumptions pointer with
length zero, and the marshaller applied to an empty contiguous
`int32_t` sequence returns a pointer into the (empty) input while leaving
the scratch buffer untouched and empty — so no non-null scratch-buffer
pointer backs empty inputs. -/
theorem C6_empty_input_yields_null_or_input_pointer :
    (solve_no_assumptions
        (SolverState.mk [] Option.none Option.none Option.none) [] 0 10).2.1
      = NativeSolveArgs.mk Ptr.null 0
    ∧ (as_contiguous_int32s lit_traits_int32
        (LitSeq.contiguousInt32 3 []) []).1.ptr = Ptr.input 3
    ∧ (as_contiguous_int32s lit_traits_int32
        (LitSeq.contiguousInt32 3 []) []).2 = [] := by
  refine ⟨rfl, rfl, rfl⟩

/-- C7: `lit_value` translates the documented ternary encoding (the wire
literal itself ↦ true, its negation ↦ false, 0 ↦ empty) and raises the
typed error on any other native value; `assumption_failed` translates the
documented binary encoding (0 ↦ false, 1 ↦ true) and raises the typed
error on any other native value. -/
theorem C7_lit_queries_translate_or_raise {α : Type} (tr : LitTraits α)
    (lit : α) (result : Int) (hw : tr.to_ipasir2_lit lit ≠ 0) :
    lit_value tr lit 0 (tr.to_ipasir2_lit lit) = .ok (some true)
    ∧ lit_value tr lit 0 (-(tr.to_ipasir2_lit lit)) = .ok (some false)
    ∧ lit_value tr lit 0 0 = .ok Option.none
    ∧ (result ≠ tr.to_ipasir2_lit lit → result ≠ -(tr.to_ipasir2_lit lit) →
        result ≠ 0 → lit_value tr lit 0 result
          = .error (.message_error "Unknown truth value received from solver"))
    ∧ assumption_failed tr lit 0 0 = .ok false
    ∧ assumption_failed tr lit 0 1 = .ok true
    ∧ (result ≠ 0 → result ≠ 1 → assumption_failed tr lit 0 result
        = .error (.message_error "Unknown truth value received from solver")) := by
  have hneg : -(tr.to_ipasir2_lit lit) ≠ tr.to_ipasir2_lit lit := by omega
  refine ⟨?_, ?_, ?_, ?_, ?_, ?_, ?_⟩
  · simp [lit_value]
  · simp [lit_value, hneg]
  · simp [lit_value, hw, Ne.symm hw]
  · intro h1 h2 h3
    simp [lit_value, h1, h2, h3]
  · simp [assumption_failed]
  · simp [assumption_failed]
  · intro h1 h2
    simp [assumption_failed, h1, h2]

theorem C7_witness :
    lit_value lit_traits_int32 (3 : Int) 0 3 = .ok (some true)
    ∧ lit_value lit_traits_int32 (3 : Int) 0 7
        = .error (.message_error "Unknown truth value received from solver")
    ∧ assumption_failed lit_traits_int32 (3 : Int) 0 7
        = .error (.message_error "Unknown truth value received from solver") := by
  have h := C7_lit_queries_translate_or_raise lit_traits_int32 (3 : Int) 7
    (by decide)
  exact ⟨h.1, h.2.2.2.1 (by decide) (by decide) (by decide),
    h.2.2.2.2.2.2 (by decide) (by decide)⟩

/-- C2: an exception captured from a terminate or export callback during
the native solve call is re-raised by the solve call (the same exception
token, i.e. original type and payload preserved) when control returns to
the owner; the pending-exception slot is cleared at that point, so a
subsequent solve call during which no callback captures an exception does
not re-raise anything. -/
theorem C2_callback_exception_rethrown_exactly_once {α : Type}
    (s : SolverState) (tr : LitTraits α) (assumptions : LitSeq α)
    (evs : List NativeEvent) (status result : Int) (e : Exc)
    (hcap : (run_native_events
        { s with clauseBuf := (as_contiguous_int32s tr assumptions s.clauseBuf).2 }
        evs).pendingExc = some e) :
    (solve s tr assumptions evs status result).2.2 = .threw_callback e
    ∧ (solve s tr assumptions evs status result).1.pendingExc = Option.none
    ∧ ∀ (assumptions2 : LitSeq α) (evs2 : List NativeEvent)
        (status2 result2 : Int),
        (run_native_events
            { (solve s tr assumptions evs status result).1 with
              clauseBuf := (as_contiguous_int32s tr assumptions2
                (solve s tr assumptions evs status result).1.clauseBuf).2 }
            evs2).pendingExc = Option.none →
        ∀ e2 : Exc,
          (solve (solve s tr assumptions evs status result).1 tr assumptions2
              evs2 status2 result2).2.2 ≠ .threw_callback e2 := by
  have hout : solve s tr assumptions evs status result
      = (({ (run_native_events
              { s with clauseBuf := (as_contiguous_int32s tr assumptions s.clauseBuf).2 }
              evs) with pendingExc := Option.none }),
         ⟨(as_contiguous_int32s tr assumptions s.clauseBuf).1.ptr,
          (as_contiguous_int32s tr assumptions s.clauseBuf).1.len⟩,
         .threw_callback e) := by
    simp only [solve]
    rw [solve_epilogue_of_pending _ _ _ _ hcap]
  refine ⟨by rw [hout], by rw [hout], ?_⟩
  intro assumptions2 evs2 status2 result2 hclear e2
  simp only [solve]
  exact solve_epilogue_no_callback_exc _ status2 result2 hclear e2

theorem C2_witness :
    (solve (SolverState.mk [] (some ⟨1, .error 42⟩) Option.none Option.none)
        lit_traits_int32 (LitSeq.contiguousInt32 0 [1])
        [NativeEvent.terminatePoll] 0 10).2.2
      = .threw_callback 42 :=
  (C2_callback_exception_rethrown_exactly_once
    (SolverState.mk [] (some ⟨1, .error 42⟩) Option.none Option.none)
    lit_traits_int32 (LitSeq.contiguousInt32 0 [1])
    [NativeEvent.terminatePoll] 0 10 42 rfl).1

/-- C8: dynamic-loading construction succeeds exactly when the module opens
and every required entry-point symbol resolves; on success the returned
function-pointer table is fully populated (matching the module's resolved
symbols), and on any failure no table is produced at all. -/
theorem C8_load_is_all_or_nothing (m : Module) :
    ((∃ api, shared_c_api.load m = .ok api) ↔
      (m.opens_ok = true ∧ ∀ n ∈ required_symbols, (m.syms n).isSome))
    ∧ (∀ api, shared_c_api.load m = .ok api →
        api.fully_resolved
        ∧ api = { add := m.syms "ipasir2_add", failed := m.syms "ipasir2_failed",
                  init := m.syms "ipasir2_init", options := m.syms "ipasir2_options",
                  release := m.syms "ipasir2_release",
                  set_export := m.syms "ipasir2_set_export",
                  set_opt := m.syms "ipasir2_set_option",
                  set_terminate := m.syms "ipasir2_set_terminate",
                  signature := m.syms "ipasir2_signature",
                  solve := m.syms "ipasir2_solve", val := m.syms "ipasir2_val" }) := by
  have hElim : ∀ api, shared_c_api.load m = .ok api →
      m.opens_ok = true ∧ (∀ n ∈ required_symbols, (m.syms n).isSome)
      ∧ api = { add := m.syms "ipasir2_add", failed := m.syms "ipasir2_failed",
                init := m.syms "ipasir2_init", options := m.syms "ipasir2_options",
                release := m.syms "ipasir2_release",
                set_export := m.syms "ipasir2_set_export",
                set_opt := m.syms "ipasir2_set_option",
                set_terminate := m.syms "ipasir2_set_terminate",
                signature := m.syms "ipasir2_signature",
                solve := m.syms "ipasir2_solve", val := m.syms "ipasir2_val" } := by
    intro api hok
    by_cases ho : m.opens_ok
    case neg => simp [shared_c_api.load, ho] at hok
    case pos =>
    rcases h1 : m.syms "ipasir2_add" with _ | a
    · simp [shared_c_api.load, load_sym, ho, h1] at hok
    rcases h2 : m.syms "ipasir2_failed" with _ | f
    · simp [shared_c_api.load, load_sym, ho, h1, h2] at hok
    rcases h3 : m.syms "ipasir2_init" with _ | i
    · simp [shared_c_api.load, load_sym, ho, h1, h2, h3] at hok
    rcases h4 : m.syms "ipasir2_options" with _ | o
    · simp [shared_c_api.load, load_sym, ho, h1, h2, h3, h4] at hok
    rcases h5 : m.syms "ipasir2_release" with _ | r
    · simp [shared_c_api.load, load_sym, ho, h1, h2, h3, h4, h5] at hok
    rcases h6 : m.syms "ipasir2_set_export" with _ | se
    · simp [shared_c_api.load, load_sym, ho, h1, h2, h3, h4, h5, h6] at hok
    rcases h7 : m.syms "ipasir2_set_option" with _ | so
    · simp [shared_c_api.load, load_sym, ho, h1, h2, h3, h4, h5, h6, h7] at hok
    rcases h8 : m.syms "ipasir2_set_terminate" with _ | st
    · simp [shared_c_api.load, load_sym, ho, h1, h2, h3, h4, h5, h6, h7,
        h8] at hok
    rcases h9 : m.syms "ipasir2_signature" with _ | sg
    · simp [shared_c_api.load, load_sym, ho, h1, h2, h3, h4, h5, h6, h7, h8,
        h9] at hok
    rcases h10 : m.syms "ipasir2_solve" with _ | sv
    · simp [shared_c_api.load, load_sym, ho, h1, h2, h3, h4, h5, h6, h7, h8,
        h9, h10] at hok
    rcases h11 : m.syms "ipasir2_val" with _ | v
    · simp [shared_c_api.load, load_sym, ho, h1, h2, h3, h4, h5, h6, h7, h8,
        h9, h10, h11] at hok
    simp [shared_c_api.load, load_sym, ho, h1, h2, h3, h4, h5, h6, h7, h8,
      h9, h10, h11] at hok
    refine ⟨ho, ?_, ?_⟩
    · intro n hn
      simp [required_symbols] at hn
      rcases hn with rfl | rfl | rfl | rfl | rfl | rfl | rfl | rfl | rfl
        | rfl | rfl <;>
        simp [h1, h2, h3, h4, h5, h6, h7, h8, h9, h10, h11]
    · rw [← hok]
  have hIntro : m.opens_ok = true →
      (∀ n ∈ required_symbols, (m.syms n).isSome) →
      ∃ api, shared_c_api.load m = .ok api := by
    intro ho hall
    obtain ⟨a, h1⟩ := Option.isSome_iff_exists.mp
      (hall "ipasir2_add" (by simp [required_symbols]))
    obtain ⟨f, h2⟩ := Option.isSome_iff_exists.mp
      (hall "ipasir2_failed" (by simp [required_symbols]))
    obtain ⟨i, h3⟩ := Option.isSome_iff_exists.mp
      (hall "ipasir2_init" (by simp [required_symbols]))
    obtain ⟨o, h4⟩ := Option.isSome_iff_exists.mp
      (hall "ipasir2_options" (by simp [required_symbols]))
    obtain ⟨r, h5⟩ := Option.isSome_iff_exists.mp
      (hall "ipasir2_release" (by simp [required_symbols]))
    obtain ⟨se, h6⟩ := Option.isSome_iff_exists.mp
      (hall "ipasir2_set_export" (by simp [required_symbols]))
    obtain ⟨so, h7⟩ := Option.isSome_iff_exists.mp
      (hall "ipasir2_set_option" (by simp [required_symbols]))
    obtain ⟨st, h8⟩ := Option.isSome_iff_exists.mp
      (hall "ipasir2_set_terminate" (by simp [required_symbols]))
    obtain ⟨sg, h9⟩ := Option.isSome_iff_exists.mp
      (hall "ipasir2_signature" (by simp [required_symbols]))
    obtain ⟨sv, h10⟩ := Option.isSome_iff_exists.mp
      (hall "ipasir2_solve" (by simp [required_symbols]))
    obtain ⟨v, h11⟩ := Option.isSome_iff_exists.mp
      (hall "ipasir2_val" (by simp [required_symbols]))
    refine ⟨{ add := some a, failed := some f, init := some i,
              options := some o, release := some r, set_export := some se,
              set_opt := some so, set_terminate := some st,
              signature := some sg, solve := some sv, val := some v }, ?_⟩
    simp [shared_c_api.load, load_sym, ho, h1, h2, h3, h4, h5, h6, h7, h8,
      h9, h10, h11]
  constructor
  · constructor
    · rintro ⟨api, hok⟩
      exact ⟨(hElim api hok).1, (hElim api hok).2.1⟩
    · rintro ⟨ho, hall⟩
      exact hIntro ho hall
  · intro api hok
    obtain ⟨ho, hall, happy⟩ := hElim api hok
    refine ⟨?_, happy⟩
    rw [happy]
    refine ⟨?_, ?_, ?_, ?_, ?_, ?_, ?_, ?_, ?_, ?_, ?_⟩ <;>
      exact hall _ (by simp [required_symbols])

theorem C8_witness :
    shared_c_api.fully_resolved
      { add := some 1, failed := some 1, init := some 1, options := some 1,
        release := some 1, set_export := some 1, set_opt := some 1,
        set_terminate := some 1, signature := some 1, solve := some 1,
        val := some 1 } :=
  ((C8_load_is_all_or_nothing (Module.mk true (fun _ => some 1))).2
    { add := some 1, failed := some 1, init := some 1, options := some 1,
      release := some 1, set_export := some 1, set_opt := some 1,
      set_terminate := some 1, signature := some 1, solve := some 1,
      val := some 1 } rfl).1

/-- C9: after a terminate-callback registration on a handle is replaced by a
new closure (no clearing needed first; the replacement always succeeds
because the trampoline is already registered), and after an export-callback
registration is replaced (whatever the native registration status), every
trampoline invocation runs at most the most recently registered closure —
the invoked closure id is either absent or the new closure's id, never the
old one's. -/
theorem C9_replaced_closure_never_invoked (s : SolverState)
    (oldT newT : TermClosure) (newE : ExportClosure) (r1 res : Int)
    (clause : List Int) (hT : s.terminateCb = some oldT) :
    (set_terminate_callback s newT r1).2 = Option.none
    ∧ ((terminate_trampoline (set_terminate_callback s newT r1).1).2.2
          = Option.none
        ∨ (terminate_trampoline (set_terminate_callback s newT r1).1).2.2
          = some newT.id)
    ∧ ((export_trampoline (set_export_callback s newE res).1 clause).2
          = Option.none
        ∨ (export_trampoline (set_export_callback s newE res).1 clause).2
          = some newE.id) := by
  have hs' : set_terminate_callback s newT r1
      = ({ s with terminateCb := some newT }, Option.none) := by
    simp [set_terminate_callback, hT]
  refine ⟨by rw [hs'], ?_, ?_⟩
  · rw [hs']
    by_cases hp : ({ s with terminateCb := some newT } : SolverState).pendingExc.isSome
    · left
      simp [terminate_trampoline, hp]
    · rcases hrun : newT.run with e | b
      · right
        simp [terminate_trampoline, hp, hrun]
      · right
        simp [terminate_trampoline, hp, hrun]
  · by_cases hres : res = 0
    · have he : (set_export_callback s newE res).1
          = { s with exportCb := some newE } := by
        simp [set_export_callback, hres]
      rw [he]
      by_cases hp : ({ s with exportCb := some newE } : SolverState).pendingExc.isSome
      · left
        simp [export_trampoline, hp]
      · rcases hrun : newE.run (clause_view_from_zero_terminated clause)
          with e | u
        · right
          simp [export_trampoline, hp, hrun]
        · right
          simp [export_trampoline, hp, hrun]
    · have he : (set_export_callback s newE res).1
          = { s with exportCb := Option.none } := by
        simp [set_export_callback, hres]
      rw [he]
      by_cases hp : ({ s with exportCb := Option.none (α := ExportClosure) } : SolverState).pendingExc.isSome
      · left
        simp [export_trampoline, hp]
      · left
        simp [export_trampoline, hp]

theorem C9_witness :
    (terminate_trampoline
        (set_terminate_callback
          (SolverState.mk [] (some ⟨1, .ok false⟩) Option.none Option.none)
          ⟨2, .ok true⟩ 0).1).2.2 = Option.none
    ∨ (terminate_trampoline
        (set_terminate_callback
          (SolverState.mk [] (some ⟨1, .ok false⟩) Option.none Option.none)
          ⟨2, .ok true⟩ 0).1).2.2 = some 2 :=
  (C9_replaced_closure_never_invoked
    (SolverState.mk [] (some ⟨1, .ok false⟩) Option.none Option.none)
    ⟨1, .ok false⟩ ⟨2, .ok true⟩ ⟨5, fun _ => .ok ()⟩ 0 0 [] rfl).2.1

lemma tuple_lits_of_wellformed (first : Int) (rest : List Int)
    (r : redundancy) :
    tuple_lits ((LitOrRed.lit first :: rest.map LitOrRed.lit)
        ++ [LitOrRed.red r])
      (((LitOrRed.lit first :: rest.map LitOrRed.lit)
        ++ [LitOrRed.red r]).length - 1)
      = first :: rest := by
  have hlen : ((LitOrRed.lit first :: rest.map LitOrRed.lit)
      ++ [LitOrRed.red (α := Int) r]).length - 1 = rest.length + 1 := by
    simp
  rw [hlen]
  unfold tuple_lits
  rw [List.take_append_of_le_length (by simp)]
  have : (LitOrRed.lit first :: rest.map LitOrRed.lit).take (rest.length + 1)
      = LitOrRed.lit first :: rest.map LitOrRed.lit := by
    apply List.take_of_length_le
    simp
  rw [this]
  simp [List.filterMap_cons]
  induction rest with
  | nil => rfl
  | cons x xs ih => simpa using ih

lemma tuple_red_of_wellformed (first : Int) (rest : List Int)
    (r : redundancy) :
    tuple_red ((LitOrRed.lit first :: rest.map LitOrRed.lit)
        ++ [LitOrRed.red r]) = r := by
  unfold tuple_red
  rw [List.getLast?_concat]

/-- C10: the variadic `add` overloads invoke the native add entry point with
exactly the same marshalled clause contents (the literals, in order) and
the same redundancy as the iterator-range `add` overload over those
literals — `redundancy::none` when no trailing redundancy argument is
given, the trailing argument otherwise. -/
theorem C10_variadic_add_matches_range_add {α : Type} (s s2 : SolverState)
    (tr : LitTraits α) (seq : LitSeq α) (first : Int) (rest : List Int)
    (r : redundancy) (arr_addr : Nat) (status status2 : Int)
    (hseq : seq.wire_of tr = first :: rest) :
    (add_variadic_nored s first rest arr_addr status).2.1.clause_data
        = (add_range s2 tr seq redundancy.none status2).2.1.clause_data
    ∧ (add_variadic_nored s first rest arr_addr status).2.1.red
        = (add_range s2 tr seq redundancy.none status2).2.1.red
    ∧ (add_variadic_red s first rest r arr_addr status).2.1.clause_data
        = (add_range s2 tr seq r status2).2.1.clause_data
    ∧ (add_variadic_red s first rest r arr_addr status).2.1.red
        = (add_range s2 tr seq r status2).2.1.red
    ∧ (add_variadic_nored s first rest arr_addr status).2.1.clause_data
        = first :: rest := by
  have hrange := add_range_native_args s2 tr seq redundancy.none status2
  have hrange_r := add_range_native_args s2 tr seq r status2
  have hva : (add_variadic_nored s first rest arr_addr status).2.1.clause_data
      = first :: rest := by
    unfold add_variadic_nored
    rw [(add_range_native_args s lit_traits_int32
      (LitSeq.contiguousInt32 arr_addr (first :: rest)) redundancy.none
      status).1]
    rfl
  have hva_red : (add_variadic_nored s first rest arr_addr status).2.1.red
      = redundancy.none := by
    unfold add_variadic_nored
    exact (add_range_native_args s lit_traits_int32
      (LitSeq.contiguousInt32 arr_addr (first :: rest)) redundancy.none
      status).2.1
  have hvr_unfold : add_variadic_red s first rest r arr_addr status
      = add_range s lit_traits_int32
          (LitSeq.contiguousInt32 arr_addr (first :: rest)) r status := by
    unfold add_variadic_red add_parampack_helper
    rw [tuple_lits_of_wellformed, tuple_red_of_wellformed]
  have hvr : (add_variadic_red s first rest r arr_addr status).2.1.clause_data
      = first :: rest := by
    rw [hvr_unfold]
    rw [(add_range_native_args s lit_traits_int32
      (LitSeq.contiguousInt32 arr_addr (first :: rest)) r status).1]
    rfl
  have hvr_red : (add_variadic_red s first rest r arr_addr status).2.1.red
      = r := by
    rw [hvr_unfold]
    exact (add_range_native_args s lit_traits_int32
      (LitSeq.contiguousInt32 arr_addr (first :: rest)) r status).2.1
  refine ⟨?_, ?_, ?_, ?_, hva⟩
  · rw [hva, hrange.1, hseq]
  · rw [hva_red, hrange.2.1]
  · rw [hvr, hrange_r.1, hseq]
  · rw [hvr_red, hrange_r.2.1]

theorem C10_witness :
    (add_variadic_red
        (SolverState.mk [] Option.none Option.none Option.none) 5 [-6]
        redundancy.forgettable 2 0).2.1.clause_data
      = (add_range (SolverState.mk [7] Option.none Option.none Option.none)
          lit_traits_int32 (LitSeq.noncontiguousInt32 [5, -6])
          redundancy.forgettable 0).2.1.clause_data :=
  (C10_variadic_add_matches_range_add
    (SolverState.mk [] Option.none Option.none Option.none)
    (SolverState.mk [7] Option.none Option.none Option.none)
    lit_traits_int32 (LitSeq.noncontiguousInt32 [5, -6]) 5 [-6]
    redundancy.forgettable 2 0 0 rfl).2.2.1

end Ipasir2
